import Mathlib

/-!
Verification of the non-nullable-pointer-wrapper playground
(`src/cpp/cpp_compile_time.cpp`, `src/cpp/cpp_runtime.cpp`).

The two demo programs use `gsl::not_null<T*>` (the spec's `NonNullRef<T>`).
The gsl header itself ("gsl/gsl") is not part of this repository's sources,
so the wrapper type, its construction/assignment contract and the two
enforcement modes are modelled from the spec; the demo code (`App`,
`ReportError`, `TestAppCheck`, `TestApp`, `RunApp`, `DiagnoseApp`, the two
`main` functions) is translated from the source files.
-/

namespace NotNullPlayground

/-- A C++ raw pointer value: `none` is the null pointer (the empty
sentinel), `some a` points at heap address `a`. -/
abbrev Ptr := Option Nat

/-- The empty sentinel (`nullptr`). -/
def nullPtr : Ptr := none

/-- Modelled from the spec: the enforcement mode of the contract checks,
selected build-wide by whether `GSL_THROW_ON_CONTRACT_VIOLATION` is defined
before including "gsl/gsl".  `cpp_runtime.cpp` defines it (strict-dynamic);
`cpp_compile_time.cpp` does not (the default, terminate-on-violation). -/
inductive Mode where
  | throwOnViolation
  | terminateOnViolation
deriving DecidableEq

/-- Modelled from the spec: a `gsl::not_null<T*>` value (`NonNullRef<T>`),
a wrapper holding one pointer with the class invariant that the held
value is never the empty sentinel. -/
structure NotNull where
  value : Ptr
  nonnull : value ≠ nullPtr

/-- The get/dereference operation of the wrapper: returns the held handle. -/
def get (w : NotNull) : Ptr := w.value

/-- The address held by a wrapper (total thanks to the invariant). -/
def addr (w : NotNull) : Nat :=
  w.value.get (Option.ne_none_iff_isSome.mp w.nonnull)

/-- Result of a runtime construction or assignment of a wrapper. -/
inductive CResult where
  | ok (w : NotNull)
  | contractViolation
  | terminated

/-- Modelled from the spec: runtime construction of a wrapper from a
pointer value.  A null input fails according to the mode (a catchable
ContractViolation under strict-dynamic, immediate process termination
under the default); a non-null input yields a valid wrapper holding
exactly that pointer. -/
def construct (mode : Mode) (p : Ptr) : CResult :=
  match p, mode with
  | none, .throwOnViolation => .contractViolation
  | none, .terminateOnViolation => .terminated
  | some a, _ => .ok ⟨some a, fun h => Option.noConfusion h⟩

/-- Modelled from the spec: whole-value reassignment of a wrapper.  The
prior held value plays no role: the new value is re-validated exactly as
at construction. -/
def assign (mode : Mode) (w : NotNull) (p : Ptr) : CResult :=
  match p, mode with
  | none, .throwOnViolation => .contractViolation
  | none, .terminateOnViolation => .terminated
  | some a, _ => .ok ⟨some a, fun h => Option.noConfusion h⟩

/-- Modelled from the spec: a call-site argument expression for a
not_null-typed slot is either the literal `nullptr` (a compile-time
constant empty sentinel) or a runtime-computed pointer value. -/
inductive ArgExpr where
  | litNull
  | runtimeVal (p : Ptr)

/-- Modelled from the spec: gsl::not_null deletes construction from
`std::nullptr_t`, so a translation unit placing the literal `nullptr` in
a not_null slot is rejected by the build. -/
def compiles : ArgExpr → Bool
  | .litNull => false
  | .runtimeVal _ => true

/-- Outcome of the whole pipeline: build, then (if it built) run. -/
inductive Outcome where
  | buildRejected
  | ok (w : NotNull)
  | contractViolation
  | terminated

/-- Modelled from the spec: building and then running a construction of a
wrapper from an argument expression.  A literal null never reaches
runtime: the program does not compile. -/
def buildAndConstruct (mode : Mode) (e : ArgExpr) : Outcome :=
  match e with
  | .litNull => .buildRejected
  | .runtimeVal p =>
    match construct mode p with
    | .ok w => .ok w
    | .contractViolation => .contractViolation
    | .terminated => .terminated

/-- Observable events of the demo programs: a console output line, a call
to `ReportError`, or a member call through an `App*` pointer (`pApp->`). -/
inductive Event where
  | out (s : String)
  | reportErrorCalled (msg : String)
  | derefApp (a : Nat)
deriving DecidableEq

/-- `void ReportError(const std::string& str) { }` — the body is empty, so
the call has no observable effect (`cpp_runtime.cpp`, line 31). -/
def ReportError (s : String) : List Event := []

/-- The heap of demo `App` objects: which addresses are live, and the
`m_name` string stored at each `App` address. -/
structure Heap where
  live : List Nat
  name : Nat → String

/-- `new App(str)`: allocate a fresh address and store the name there. -/
def newApp (h : Heap) (s : String) : Heap × Nat :=
  let a := h.live.foldr max 0 + 1
  ({ live := a :: h.live, name := fun x => if x = a then s else h.name x }, a)

/-- `delete` of an `App*`: the referent's address stops being live. -/
def deleteApp (h : Heap) (a : Nat) : Heap :=
  { live := h.live.erase a, name := h.name }

/-- Modelled from the spec: destroying a wrapper (scope exit) has no
effect on the heap — the wrapper owns nothing. -/
def destroyWrapper (h : Heap) (w : NotNull) : Heap := h

/-- `pApp->Run()`: a member call through the pointer, then the output. -/
def App.Run (h : Heap) (a : Nat) : List Event :=
  [.derefApp a, .out ("Running " ++ h.name a)]

/-- `pApp->Shutdown()`. -/
def App.Shutdown (h : Heap) (a : Nat) : List Event :=
  [.derefApp a, .out ("App " ++ h.name a ++ " is closing...")]

/-- `pApp->Diagnose()`. -/
def App.Diagnose (h : Heap) (a : Nat) : List Event :=
  [.derefApp a, .out "Diagnosing..."]

/-- `void RunApp(gsl::not_null<App *> pApp) { pApp->Run(); pApp->Shutdown(); }` -/
def RunApp (h : Heap) (pApp : NotNull) : List Event :=
  App.Run h (addr pApp) ++ App.Shutdown h (addr pApp)

/-- `void DiagnoseApp(gsl::not_null<App *> pApp) { pApp->Diagnose(); }` -/
def DiagnoseApp (h : Heap) (pApp : NotNull) : List Event :=
  App.Diagnose h (addr pApp)

/-- `void TestAppCheck(App* pApp, TestParams* pParams)` — the manual
null-checking variant (`cpp_runtime.cpp`, lines 45-53): if both pointers
are truthy it does nothing, otherwise it calls
`ReportError("null input params")`.  It never goes through either
pointer and always returns normally. -/
def TestAppCheck (pApp : Ptr) (pParams : Ptr) : List Event :=
  if pApp.isSome && pParams.isSome then
    []
  else
    Event.reportErrorCalled "null input params" :: ReportError "null input params"

/-- `void TestApp(gsl::not_null<App *>, gsl::not_null<TestParams *>)` —
the body is only a comment: the input pointers are already valid. -/
def TestApp (pApp : NotNull) (pParams : NotNull) : List Event := []

/-- Modelled from the spec: the `what()` text carried by the catchable
ContractViolation (gsl's fail_fast exception) in strict-dynamic mode. -/
def gslFailFastWhat : String := "GSL: Precondition failure"

/-- How a block of the demo finishes: normally, by a thrown (catchable)
ContractViolation carrying its `what()` text, or by process termination. -/
inductive Flow where
  | normal
  | thrown (what : String)
  | killed
deriving DecidableEq

/-- The try-block of `cpp_runtime.cpp`'s `main` after `myApp.reset(nullptr)`:
`TestApp(myApp.get(), myParams.get()); RunApp(myApp.get());`.  Each
argument passed to a not_null parameter constructs a wrapper and so runs
the runtime check in the configured mode. -/
def runtimeTryBody (mode : Mode) (h : Heap) (myApp myParams : Ptr) :
    List Event × Flow :=
  match construct mode myApp with
  | .contractViolation => ([], .thrown gslFailFastWhat)
  | .terminated => ([], .killed)
  | .ok wApp =>
    match construct mode myParams with
    | .contractViolation => ([], .thrown gslFailFastWhat)
    | .terminated => ([], .killed)
    | .ok wParams =>
      let e1 := TestApp wApp wParams
      match construct mode myApp with
      | .contractViolation => (e1, .thrown gslFailFastWhat)
      | .terminated => (e1, .killed)
      | .ok wApp2 => (e1 ++ RunApp h wApp2, .normal)

/-- The heap of `cpp_runtime.cpp`'s `main` after the two `make_unique`
calls: address 1 holds `App("Poker")`, address 2 holds the `TestParams`. -/
def runtimeHeap : Heap :=
  { live := [1, 2], name := fun a => if a = 1 then "Poker" else "" }

/-- `main` of `cpp_runtime.cpp`, generic in the enforcement mode: call
`TestAppCheck` on the two live pointers, then run the try-block with
`myApp` already reset to null; a thrown ContractViolation is caught by
the `catch (std::exception&)` handler, which prints `e.what()` and calls
`ReportError("null input params")`; finally print "Finished...". -/
def runtimeMainIn (mode : Mode) : List Event × Flow :=
  let myApp : Ptr := some 1
  let myParams : Ptr := some 2
  let t1 := TestAppCheck myApp myParams
  let body := runtimeTryBody mode runtimeHeap nullPtr myParams
  match body.2 with
  | .normal => (t1 ++ body.1 ++ [.out "Finished..."], .normal)
  | .thrown w =>
    (t1 ++ body.1 ++ [.out w]
        ++ (Event.reportErrorCalled "null input params"
              :: ReportError "null input params")
        ++ [.out "Finished..."], .normal)
  | .killed => (t1 ++ body.1, .killed)

/-- `main` of `cpp_runtime.cpp`: the file defines
`GSL_THROW_ON_CONTRACT_VIOLATION`, so it runs in strict-dynamic mode. -/
def runtimeMain : List Event × Flow :=
  runtimeMainIn .throwOnViolation

/-- The first block of `cpp_compile_time.cpp`'s `main` (lines 44-50):
`gsl::not_null<App *> myApp = new App("Poker"); delete myApp;` and then
the wrapper goes out of scope.  The file does not define
`GSL_THROW_ON_CONTRACT_VIOLATION`, so the default terminate-on-violation
mode is in effect.  Returns the final heap, the construction result, and
the address the `new` produced. -/
def compileTimeBlock1 : Heap × CResult × Nat :=
  let p := newApp { live := [], name := fun _ => "" } "Poker"
  match construct .terminateOnViolation (some p.2) with
  | .ok myApp =>
    let h2 := deleteApp p.1 (addr myApp)
    (destroyWrapper h2 myApp, .ok myApp, p.2)
  | .contractViolation => (p.1, .contractViolation, p.2)
  | .terminated => (p.1, .terminated, p.2)

/-- C1: every wrapper observable at all satisfies the non-null invariant —
`get` never returns the empty sentinel — and both construction and
whole-value reassignment only ever produce such wrappers, so every
operation preserves the invariant between construction and the next
reassignment or destruction. -/
theorem c1_nonnull_invariant :
    (∀ w : NotNull, get w ≠ nullPtr) ∧
    (∀ mode p w, construct mode p = .ok w → get w ≠ nullPtr) ∧
    (∀ mode w p w2, assign mode w p = .ok w2 → get w2 ≠ nullPtr) :=
  ⟨fun w => w.nonnull,
   fun _ _ w _ => w.nonnull,
   fun _ _ _ w2 _ => w2.nonnull⟩

/-- Witness for C1 at a concrete construction from address 1. -/
theorem c1_nonnull_invariant_witness :
    construct .throwOnViolation (some 1) =
      .ok ⟨some 1, fun h => Option.noConfusion h⟩ ∧
    get ⟨some 1, fun h => Option.noConfusion h⟩ ≠ nullPtr :=
  ⟨rfl, c1_nonnull_invariant.2.1 .throwOnViolation (some 1) _ rfl⟩

/-- C2: with `GSL_THROW_ON_CONTRACT_VIOLATION` defined, constructing a
wrapper from a runtime null pointer yields a catchable ContractViolation
and never a valid wrapper instance. -/
theorem c2_strict_dynamic_rejection :
    construct .throwOnViolation nullPtr = .contractViolation ∧
    ∀ w, construct .throwOnViolation nullPtr ≠ .ok w :=
  ⟨rfl, fun _ h => CResult.noConfusion h⟩

/-- Witness for C2 at a concrete candidate wrapper. -/
theorem c2_strict_dynamic_rejection_witness :
    construct .throwOnViolation nullPtr ≠
      .ok ⟨some 1, fun h => Option.noConfusion h⟩ :=
  c2_strict_dynamic_rejection.2 _

/-- C3: an argument expression that is the literal `nullptr` at a
not_null slot does not compile in either mode, and build rejection
happens exactly for the literal-null expression. -/
theorem c3_static_rejection :
    compiles ArgExpr.litNull = false ∧
    (∀ mode, buildAndConstruct mode .litNull = .buildRejected) ∧
    (∀ mode e, buildAndConstruct mode e = .buildRejected ↔ compiles e = false) := by
  refine ⟨rfl, fun _ => rfl, fun mode e => ?_⟩
  cases e with
  | litNull => simp [buildAndConstruct, compiles]
  | runtimeVal p =>
    cases p <;> cases mode <;> simp [buildAndConstruct, compiles, construct]

/-- Witness for C3 at the literal-null expression in strict mode. -/
theorem c3_static_rejection_witness :
    buildAndConstruct .throwOnViolation .litNull = .buildRejected ∧
    (buildAndConstruct .throwOnViolation .litNull = .buildRejected ↔
      compiles .litNull = false) :=
  ⟨c3_static_rejection.2.1 .throwOnViolation,
   c3_static_rejection.2.2 .throwOnViolation .litNull⟩

/-- C4: reassigning a wrapper re-runs exactly the construction check
(ContractViolation in strict mode, termination in terminate mode for a
null input); a failed assignment never yields a wrapper (so nothing is
silently retained or cleared: the failure is signalled), a successful
one holds exactly the new value, and no operation can leave a wrapper
holding the empty sentinel. -/
theorem c4_assign_revalidates :
    (∀ mode w p, assign mode w p = construct mode p) ∧
    (∀ w, assign .throwOnViolation w nullPtr = .contractViolation) ∧
    (∀ w, assign .terminateOnViolation w nullPtr = .terminated) ∧
    (∀ mode w w2, assign mode w nullPtr ≠ .ok w2) ∧
    (∀ mode w p w2, assign mode w p = .ok w2 → get w2 = p) := by
  refine ⟨?_, fun _ => rfl, fun _ => rfl, ?_, ?_⟩
  · intro mode w p
    cases p <;> cases mode <;> rfl
  · intro mode w w2 h
    cases mode <;> exact CResult.noConfusion h
  · intro mode w p w2 h
    cases p with
    | none => cases mode <;> exact absurd h (fun h2 => CResult.noConfusion h2)
    | some a =>
      cases mode <;> (injection h with h2; rw [← h2]; rfl)

/-- Witness for C4: reassignment at concrete wrappers and pointers. -/
theorem c4_assign_revalidates_witness :
    assign .throwOnViolation ⟨some 1, fun h => Option.noConfusion h⟩ (some 2) =
      construct .throwOnViolation (some 2) ∧
    assign .throwOnViolation ⟨some 1, fun h => Option.noConfusion h⟩ nullPtr ≠
      .ok ⟨some 2, fun h => Option.noConfusion h⟩ ∧
    get ⟨some 2, fun h => Option.noConfusion h⟩ = some 2 :=
  ⟨c4_assign_revalidates.1 .throwOnViolation _ (some 2),
   c4_assign_revalidates.2.2.2.1 .throwOnViolation _ _,
   c4_assign_revalidates.2.2.2.2 .throwOnViolation
     ⟨some 1, fun h => Option.noConfusion h⟩ (some 2) _ rfl⟩

/-- C5: in the strict-dynamic demo, constructing from the reset (null)
unique-pointer handle raises a ContractViolation; `main`'s trace shows it
caught (printing the exception text, then reporting "null input params")
and the run finishes normally; and a null input never silently succeeds
in any mode: it is a catchable violation or a termination. -/
theorem c5_scenario_c :
    construct .throwOnViolation nullPtr = .contractViolation ∧
    runtimeMain.1 =
      [Event.out gslFailFastWhat,
       Event.reportErrorCalled "null input params",
       Event.out "Finished..."] ∧
    runtimeMain.2 = Flow.normal ∧
    (∀ mode p, p = nullPtr →
      construct mode p = .contractViolation ∨ construct mode p = .terminated) := by
  refine ⟨rfl, rfl, rfl, ?_⟩
  rintro mode p rfl
  cases mode
  · exact Or.inl rfl
  · exact Or.inr rfl

/-- Witness for C5 at the null pointer in terminate mode. -/
theorem c5_scenario_c_witness :
    construct .terminateOnViolation nullPtr = .contractViolation ∨
    construct .terminateOnViolation nullPtr = .terminated :=
  c5_scenario_c.2.2.2 .terminateOnViolation nullPtr rfl

/-- C6: in the default terminate-on-violation mode, a runtime null input
to construction or reassignment terminates the process: no wrapper is
observable afterwards, and there is no unwinding (no catchable
ContractViolation). -/
theorem c6_terminate_mode :
    construct .terminateOnViolation nullPtr = .terminated ∧
    (∀ w, assign .terminateOnViolation w nullPtr = .terminated) ∧
    (∀ w, construct .terminateOnViolation nullPtr ≠ .ok w) ∧
    construct .terminateOnViolation nullPtr ≠ .contractViolation :=
  ⟨rfl, fun _ => rfl, fun _ h => CResult.noConfusion h,
   fun h => CResult.noConfusion h⟩

/-- Witness for C6 at a concrete wrapper. -/
theorem c6_terminate_mode_witness :
    assign .terminateOnViolation ⟨some 1, fun h => Option.noConfusion h⟩ nullPtr =
      .terminated ∧
    construct .terminateOnViolation nullPtr ≠
      .ok ⟨some 1, fun h => Option.noConfusion h⟩ :=
  ⟨c6_terminate_mode.2.1 _, c6_terminate_mode.2.2.1 _⟩

/-- C7: `get` is a total operation with no failure mode, returning the
held handle unchanged: a successfully constructed wrapper holds exactly
the pointer supplied at construction, and `get` merely reads that field
(no check of the referent's liveness — it takes no heap at all). -/
theorem c7_get_no_failure :
    (∀ mode p w, construct mode p = .ok w → get w = p) ∧
    (∀ w : NotNull, get w = w.value) := by
  refine ⟨?_, fun _ => rfl⟩
  intro mode p w h
  cases p with
  | none => cases mode <;> exact absurd h (fun h2 => CResult.noConfusion h2)
  | some a =>
    cases mode <;> (injection h with h2; rw [← h2]; rfl)

/-- Witness for C7 at a concrete construction from address 7. -/
theorem c7_get_no_failure_witness :
    get ⟨some 7, fun h => Option.noConfusion h⟩ = some 7 :=
  c7_get_no_failure.1 .terminateOnViolation (some 7) _ rfl

/-- C8: destroying a wrapper never changes the heap (no deallocation of
the referent); in the first block of `cpp_compile_time.cpp`'s `main`,
construction from `new App("Poker")` succeeds, and after `delete myApp`
the wrapper still holds the very same non-null pointer while its
referent is no longer live (dangling, not null). -/
theorem c8_no_ownership :
    (∀ h w, destroyWrapper h w = h) ∧
    (∃ w, compileTimeBlock1.2.1 = CResult.ok w ∧
      get w = some compileTimeBlock1.2.2 ∧
      compileTimeBlock1.2.2 ∉ compileTimeBlock1.1.live) := by
  refine ⟨fun _ _ => rfl, ⟨⟨some 1, fun h => Option.noConfusion h⟩, rfl, rfl, ?_⟩⟩
  decide

/-- Witness for C8: destroying a concrete wrapper over a concrete heap. -/
theorem c8_no_ownership_witness :
    destroyWrapper { live := [3], name := fun _ => "Poker" }
        ⟨some 3, fun h => Option.noConfusion h⟩ =
      { live := [3], name := fun _ => "Poker" } :=
  c8_no_ownership.1 _ _

/-- C9: `ReportError` has no observable effect for any string;
`TestAppCheck` calls `ReportError "null input params"` exactly when at
least one of its two arguments is null, and for no arguments does it go
through a pointer or print anything (and, being a total function, it
returns normally on every pair of inputs, null ones included). -/
theorem c9_testappcheck :
    (∀ s, ReportError s = []) ∧
    (∀ p q, Event.reportErrorCalled "null input params" ∈ TestAppCheck p q ↔
      (p = nullPtr ∨ q = nullPtr)) ∧
    (∀ p q a, Event.derefApp a ∉ TestAppCheck p q) ∧
    (∀ p q s, Event.out s ∉ TestAppCheck p q) := by
  refine ⟨fun _ => rfl, ?_, ?_, ?_⟩
  · intro p q
    cases p <;> cases q <;> simp [TestAppCheck, ReportError, nullPtr]
  · intro p q a
    cases p <;> cases q <;> simp [TestAppCheck, ReportError]
  · intro p q s
    cases p <;> cases q <;> simp [TestAppCheck, ReportError]

/-- Witness for C9 at a null first argument and a live second argument. -/
theorem c9_testappcheck_witness :
    Event.reportErrorCalled "null input params" ∈ TestAppCheck nullPtr (some 2) ∧
    Event.derefApp 1 ∉ TestAppCheck nullPtr (some 2) :=
  ⟨(c9_testappcheck.2.1 nullPtr (some 2)).mpr (Or.inl rfl),
   c9_testappcheck.2.2.1 nullPtr (some 2) 1⟩

/-- C10: in the strict-dynamic demo run, the thrown ContractViolation
aborts the try block before `RunApp` executes — the trace holds no
member call through a pointer and no "Running Poker" line — the
exception is caught in `main` (its text is printed), "Finished..." is
still printed and `main` returns normally rather than terminating. -/
theorem c10_violation_caught_before_runapp :
    (∀ a, Event.derefApp a ∉ runtimeMain.1) ∧
    Event.out "Running Poker" ∉ runtimeMain.1 ∧
    Event.out gslFailFastWhat ∈ runtimeMain.1 ∧
    Event.out "Finished..." ∈ runtimeMain.1 ∧
    runtimeMain.2 = Flow.normal := by
  have htr : runtimeMain.1 =
      [Event.out gslFailFastWhat,
       Event.reportErrorCalled "null input params",
       Event.out "Finished..."] := rfl
  refine ⟨?_, ?_, ?_, ?_, rfl⟩
  · intro a
    rw [htr]
    simp
  · rw [htr]
    decide
  · rw [htr]
    decide
  · rw [htr]
    decide

/-- Witness for C10 at a concrete address. -/
theorem c10_violation_caught_before_runapp_witness :
    Event.derefApp 1 ∉ runtimeMain.1 :=
  c10_violation_caught_before_runapp.1 1

end NotNullPlayground
